import Mathlib

/-!
Shallow embedding of the step-tracking / diagnostic-capture engine of the
repository (the `DebugService` class: `initializeTest`, `trackStep`,
`captureErrorContext`, `finalizeTest`, `generateTestReport`).

Modelling choices:
* The service's two `Map` fields (`debugSteps`, `testStartTime`) are modelled
  as functions `String → Option _` (JavaScript `Map` keys are unique, so
  `get`/`set`/`delete` are pointwise updates).
* Asynchronous driver calls (`page.screenshot`, `page.content`,
  `fs.writeFileSync`, `page.title`, `page.evaluate`) are modelled by a
  `PageModel` record carrying the outcome (`Except`) each such call would
  produce during the wrapper call; `page.url()` and `viewportSize()` are
  synchronous and modelled as total.
* Thrown JavaScript values are `JSValue`: either an `Error` instance or any
  other value carried with its `String(value)` conversion.
* `Date.now()` readings are passed in explicitly: `t0` at step start, `t1` at
  the success-path settle point, `t2` at the catch-block settle point.
* Console output, `test.step` logging, and Playwright tracing start/stop are
  pure output side effects with no bearing on the service state or on what
  the caller observes; they are not modelled.  The `timestamp` field of the
  error-detail record (always `new Date().toISOString()`) is likewise
  omitted.
-/

namespace DebugSvc

/-- A JavaScript value raised by a step operation or a capture call: either an
`Error` instance (with `message` and optional `stack`), or any other value,
carried together with its `String(value)` conversion. -/
inductive JSValue where
  | errObj (message : String) (stack : Option String)
  | prim (stringRepr : String)
  deriving Repr, DecidableEq

/-- `error instanceof Error ? error.message : String(error)` -/
def JSValue.messageOf : JSValue → String
  | .errObj m _ => m
  | .prim s => s

/-- `error instanceof Error ? error.stack : undefined` -/
def JSValue.stackOf : JSValue → Option String
  | .errObj _ st => st
  | .prim _ => none

/-- The template-literal conversion used in `Step failed: ${error}`. -/
def JSValue.jsToString : JSValue → String
  | .errObj m _ => "Error: " ++ m
  | .prim s => s

/-- The `errorDetails` record built in `trackStep`'s catch block (message,
stack, pageUrl) and possibly enriched by `captureErrorContext` (screenshot,
htmlSnapshot, consoleLogs, pageTitle, viewportSize, userAgent). -/
structure ErrorDetails where
  message : String
  stack : Option String
  pageUrl : String
  screenshot : Option String := none
  htmlSnapshot : Option String := none
  consoleLogs : Option (List String) := none
  pageTitle : Option String := none
  viewport : Option (Nat × Nat) := none
  userAgent : Option String := none
  deriving Repr, DecidableEq

/-- The `DebugStep` interface.  `duration` is initialised to `0` in the step
record literal and overwritten when the step settles, so it is a plain `Nat`
here. -/
structure DebugStep where
  stepNumber : Nat
  stepName : String
  description : String
  action : String
  expectedResult : String
  actualResult : Option String := none
  duration : Nat := 0
  screenshot : Option String := none
  success : Bool
  errorDetails : Option ErrorDetails := none
  deriving Repr, DecidableEq

/-- The aggregate summary emitted by `generateTestReport` (the source prints
these values; the model returns them as a record). -/
structure TestReport where
  testName : String
  passed : Bool
  totalDuration : Nat
  totalSteps : Nat
  successfulSteps : Nat
  failedSteps : Nat
  steps : List DebugStep
  deriving Repr, DecidableEq

/-- Outcomes of the driver calls a single `trackStep` invocation may make.
Each `Except` field is what the corresponding awaited call would produce if
reached (a `Except.error` models a rejected promise / thrown capture error). -/
structure PageModel where
  url : String
  beforeShot : Except JSValue Unit
  afterShot : Except JSValue Unit
  errorShot : Except JSValue Unit
  htmlContent : Except JSValue String
  writeHtml : Except JSValue Unit
  pageTitle : Except JSValue String
  userAgent : Except JSValue String
  viewportW : Nat
  viewportH : Nat

/-- JavaScript `Map<string, V>` with unique keys, modelled pointwise. -/
def StrMap (V : Type) : Type := String → Option V

/-- `map.get(k)` (returning `undefined` as `none`). -/
def mapGet {V : Type} (m : StrMap V) (k : String) : Option V := m k

/-- `map.set(k, v)`. -/
def mapSet {V : Type} (m : StrMap V) (k : String) (v : V) : StrMap V :=
  fun k' => if k' = k then some v else m k'

/-- `map.delete(k)`. -/
def mapDelete {V : Type} (m : StrMap V) (k : String) : StrMap V :=
  fun k' => if k' = k then none else m k'

/-- `new Map()`. -/
def mapEmpty {V : Type} : StrMap V := fun _ => none

/-- The mutable fields of the `DebugService` singleton. -/
structure DebugServiceState where
  debugSteps : StrMap (List DebugStep)
  testStartTime : StrMap Nat
  isDebugMode : Bool

/-- The freshly constructed service (`debugSteps` and `testStartTime` empty;
`isDebugMode` resolved from the environment at construction). -/
def initialState (dm : Bool) : DebugServiceState :=
  { debugSteps := mapEmpty, testStartTime := mapEmpty, isDebugMode := dm }

/-- `test-results/debug/${testName}/step-${stepNumber}-before.png` -/
def beforePath (testName : String) (n : Nat) : String :=
  "test-results/debug/" ++ testName ++ "/step-" ++ toString n ++ "-before.png"

/-- `test-results/debug/${testName}/step-${stepNumber}-success.png` -/
def successPath (testName : String) (n : Nat) : String :=
  "test-results/debug/" ++ testName ++ "/step-" ++ toString n ++ "-success.png"

/-- `test-results/debug/${testName}/step-${stepNumber}-error.png` -/
def errorShotPath (testName : String) (n : Nat) : String :=
  "test-results/debug/" ++ testName ++ "/step-" ++ toString n ++ "-error.png"

/-- `test-results/debug/${testName}/step-${stepNumber}-error.html` -/
def errorHtmlPath (testName : String) (n : Nat) : String :=
  "test-results/debug/" ++ testName ++ "/step-" ++ toString n ++ "-error.html"

/-- `captureErrorContext`: attempts, in order, the error screenshot, the page
HTML capture, the HTML file write, `page.title()` and the user-agent
evaluation; if all succeed, the step's `errorDetails` is enriched by object
spread (preserving `message`/`stack`); if any fails, the whole body's
`catch (captureError)` logs and leaves the step as it was.  (`mkdirSync` is
idempotent directory creation with no observable failure of its own here;
`getRecentConsoleLogs` is the stub returning `[]`.) -/
def captureErrorContext (testName : String) (step : DebugStep) (page : PageModel) :
    DebugStep :=
  match page.errorShot, page.htmlContent, page.writeHtml, page.pageTitle, page.userAgent with
  | Except.ok _, Except.ok _, Except.ok _, Except.ok title, Except.ok ua =>
      { step with errorDetails := step.errorDetails.map fun ed =>
          { ed with screenshot := some (errorShotPath testName step.stepNumber),
                    htmlSnapshot := some (errorHtmlPath testName step.stepNumber),
                    consoleLogs := some [],
                    pageTitle := some title,
                    pageUrl := page.url,
                    viewport := some (page.viewportW, page.viewportH),
                    userAgent := some ua } }
  | _, _, _, _, _ => step

/-- The mutation performed on the in-flight step record by `trackStep`'s
`catch (error)` block: overwrite duration/success/actualResult, build the base
`errorDetails` (message, stack, pageUrl), then run `captureErrorContext`. -/
def failedStepOf (testName : String) (cur : DebugStep) (t0 t2 : Nat)
    (page : PageModel) (e : JSValue) : DebugStep :=
  captureErrorContext testName
    { cur with duration := t2 - t0, success := false,
               actualResult := some ("Step failed: " ++ e.jsToString),
               errorDetails := some { message := e.messageOf, stack := e.stackOf,
                                      pageUrl := page.url } }
    page

/-- The `catch (error)` block of `trackStep` (applied to the step record as it
stood when the error was raised): finalise the record via `failedStepOf`, push
the failed step, re-`throw error`. -/
def catchBranch {α : Type} (svc : DebugServiceState) (testName : String)
    (steps : List DebugStep) (cur : DebugStep) (t0 t2 : Nat) (page : PageModel)
    (e : JSValue) : DebugServiceState × Except JSValue α :=
  ({ svc with debugSteps := mapSet svc.debugSteps testName
                (steps ++ [failedStepOf testName cur t0 t2 page e]) },
   Except.error e)

/-- `trackStep`.  The zero-argument step closure is represented by the outcome
`stepFunction` it would produce when invoked.  Control flow mirrors the
source's try/catch: in debug mode the "before" screenshot is awaited inside
the try (so its failure lands in the catch and the closure is never invoked);
on closure success the step record is finalised as successful and, in debug
mode, the "after" screenshot is awaited — still inside the try, before the
push — so its failure also lands in the catch; any caught error is recorded
via `catchBranch` and re-thrown. -/
def trackStep {α : Type} (svc : DebugServiceState)
    (testName stepName description action expectedResult : String)
    (page : PageModel) (t0 t1 t2 : Nat) (stepFunction : Except JSValue α) :
    DebugServiceState × Except JSValue α :=
  let steps := (mapGet svc.debugSteps testName).getD []
  let stepNumber := steps.length + 1
  let stepResult : DebugStep :=
    { stepNumber := stepNumber, stepName := stepName, description := description,
      action := action, expectedResult := expectedResult, success := false,
      duration := 0 }
  let execBody : DebugStep → DebugServiceState × Except JSValue α := fun cur =>
    match stepFunction with
    | Except.error e => catchBranch svc testName steps cur t0 t2 page e
    | Except.ok result =>
      let done : DebugStep :=
        { cur with duration := t1 - t0, success := true,
                   actualResult := some "Step completed successfully" }
      if svc.isDebugMode then
        match page.afterShot with
        | Except.error e => catchBranch svc testName steps done t0 t2 page e
        | Except.ok _ =>
            ({ svc with debugSteps := mapSet svc.debugSteps testName (steps ++ [done]) },
             Except.ok result)
      else
        ({ svc with debugSteps := mapSet svc.debugSteps testName (steps ++ [done]) },
         Except.ok result)
  if svc.isDebugMode then
    match page.beforeShot with
    | Except.error e => catchBranch svc testName steps stepResult t0 t2 page e
    | Except.ok _ =>
        execBody { stepResult with screenshot := some (beforePath testName stepNumber) }
  else execBody stepResult

/-- `initializeTest` (shortened to `initTest`): records the start time and
resets the step list for `testName`; in debug mode it also starts Playwright
tracing (pure driver side effect, not modelled).  Note it performs no
duplicate-session check. -/
def initTest (svc : DebugServiceState) (testName : String) (now : Nat) :
    DebugServiceState :=
  { svc with testStartTime := mapSet svc.testStartTime testName now,
             debugSteps := mapSet svc.debugSteps testName [] }

/-- `generateTestReport`: the summary printed at the end of `finalizeTest`,
returned as a record. -/
def generateTestReport (testName : String) (steps : List DebugStep)
    (totalDuration : Nat) (success : Bool) : TestReport :=
  { testName := testName, passed := success, totalDuration := totalDuration,
    totalSteps := steps.length,
    successfulSteps := (steps.filter fun s => s.success).length,
    failedSteps := (steps.filter fun s => !s.success).length,
    steps := steps }

/-- `finalizeTest`: reads the recorded steps (`|| []` on a missing entry) and
the start time (total duration `0` when absent), emits the report, and deletes
both per-test entries.  Note it performs no missing-session check. -/
def finalizeTest (svc : DebugServiceState) (testName : String) (endTime : Nat)
    (success : Bool) : DebugServiceState × TestReport :=
  let steps := (mapGet svc.debugSteps testName).getD []
  let totalDuration := match mapGet svc.testStartTime testName with
    | some t => endTime - t
    | none => 0
  let report := generateTestReport testName steps totalDuration success
  ({ svc with debugSteps := mapDelete svc.debugSteps testName,
              testStartTime := mapDelete svc.testStartTime testName },
   report)

/-- Closed form of the step record a `trackStep` call appends, as a function
of the debug flag, the call arguments, and the length of the previously
recorded list.  Proven equal to `trackStep`'s behaviour in
`trackStep_closed_form` below. -/
def newStepOf {α : Type} (dm : Bool)
    (testName stepName description action expectedResult : String)
    (page : PageModel) (t0 t1 t2 : Nat) (prevLen : Nat)
    (sf : Except JSValue α) : DebugStep :=
  let base : DebugStep :=
    { stepNumber := prevLen + 1, stepName := stepName, description := description,
      action := action, expectedResult := expectedResult, success := false,
      duration := 0 }
  if dm then
    match page.beforeShot with
    | Except.error e => failedStepOf testName base t0 t2 page e
    | Except.ok _ =>
      let cur := { base with screenshot := some (beforePath testName (prevLen + 1)) }
      match sf with
      | Except.error e => failedStepOf testName cur t0 t2 page e
      | Except.ok _ =>
        let done : DebugStep :=
          { cur with duration := t1 - t0, success := true,
                     actualResult := some "Step completed successfully" }
        match page.afterShot with
        | Except.error e => failedStepOf testName done t0 t2 page e
        | Except.ok _ => done
  else
    match sf with
    | Except.error e => failedStepOf testName base t0 t2 page e
    | Except.ok _ =>
        { base with duration := t1 - t0, success := true,
                    actualResult := some "Step completed successfully" }

/-- Closed form of the value/error a `trackStep` call hands back to its
caller.  Proven equal to `trackStep`'s behaviour in `trackStep_closed_form`
below. -/
def resultOf {α : Type} (dm : Bool) (page : PageModel)
    (sf : Except JSValue α) : Except JSValue α :=
  if dm then
    match page.beforeShot with
    | Except.error e => Except.error e
    | Except.ok _ =>
      match sf with
      | Except.error e => Except.error e
      | Except.ok r =>
        match page.afterShot with
        | Except.error e => Except.error e
        | Except.ok _ => Except.ok r
  else sf

/-- States of the service reachable from a fresh instance by any interleaving
of `initializeTest`, `trackStep` and `finalizeTest` calls. -/
inductive Reachable : DebugServiceState → Prop where
  | empty (dm : Bool) : Reachable (initialState dm)
  | start (svc : DebugServiceState) (tn : String) (now : Nat) :
      Reachable svc → Reachable (initTest svc tn now)
  | step {α : Type} (svc : DebugServiceState)
      (tn sn d a er : String) (page : PageModel) (t0 t1 t2 : Nat)
      (sf : Except JSValue α) :
      Reachable svc → Reachable (trackStep svc tn sn d a er page t0 t1 t2 sf).1
  | finish (svc : DebugServiceState) (tn : String) (endTime : Nat) (s : Bool) :
      Reachable svc → Reachable (finalizeTest svc tn endTime s).1

/-- One service call, for reasoning about interleaved multi-test traces. -/
inductive DebugOp where
  | start (now : Nat)
  | step (sn d a er : String) (page : PageModel) (t0 t1 t2 : Nat)
      (sf : Except JSValue JSValue)
  | finish (endTime : Nat) (ok : Bool)

/-- Apply one call on behalf of test `tn`. -/
def applyOp (svc : DebugServiceState) (tn : String) : DebugOp → DebugServiceState
  | .start now => initTest svc tn now
  | .step sn d a er page t0 t1 t2 sf => (trackStep svc tn sn d a er page t0 t1 t2 sf).1
  | .finish endTime ok => (finalizeTest svc tn endTime ok).1

/-- Run an interleaved trace of calls, each tagged with its test identifier. -/
def runOps (svc : DebugServiceState) : List (String × DebugOp) → DebugServiceState
  | [] => svc
  | (tn, op) :: rest => runOps (applyOp svc tn op) rest

/-- Two states agree on everything a call for test `B` can observe. -/
def agreeOn (B : String) (s s' : DebugServiceState) : Prop :=
  mapGet s.debugSteps B = mapGet s'.debugSteps B ∧
  mapGet s.testStartTime B = mapGet s'.testStartTime B ∧
  s.isDebugMode = s'.isDebugMode

/-- Per-session invariant: step numbers are exactly `1..N` in list order, and
error details are present exactly on failed steps. -/
def stepsInv (l : List DebugStep) : Prop :=
  l.map (fun s => s.stepNumber) = List.range' 1 l.length ∧
  ∀ s ∈ l, (s.success = false ↔ s.errorDetails.isSome = true)

/-- Whole-state invariant: every live session satisfies `stepsInv`. -/
def stateInv (svc : DebugServiceState) : Prop :=
  ∀ tn l, mapGet svc.debugSteps tn = some l → stepsInv l

/-! Concrete fixtures used by witnesses and counterexamples. -/

/-- A driver on which every capture call succeeds. -/
def pageOK : PageModel :=
  { url := "https://site.test/room", beforeShot := Except.ok (),
    afterShot := Except.ok (), errorShot := Except.ok (),
    htmlContent := Except.ok "<html></html>", writeHtml := Except.ok (),
    pageTitle := Except.ok "Rooms", userAgent := Except.ok "agent",
    viewportW := 1280, viewportH := 720 }

/-- A concrete `Error` instance thrown by a step operation. -/
def errX : JSValue := JSValue.errObj "boom" (some "Error: boom at step")

/-- A concrete capture failure (a rejected `page.screenshot` promise). -/
def shotErr : JSValue := JSValue.errObj "screenshot failed" none

/-- Driver whose "before" screenshot fails. -/
def pageBadBefore : PageModel := { pageOK with beforeShot := Except.error shotErr }

/-- Driver whose "after" screenshot fails. -/
def pageBadAfter : PageModel := { pageOK with afterShot := Except.error shotErr }

/-- Driver whose error-context screenshot fails. -/
def pageBadErrorShot : PageModel := { pageOK with errorShot := Except.error shotErr }

/-- Demo session: `initializeTest "t1"` on a fresh non-debug service. -/
def demo1 : DebugServiceState := initTest (initialState false) "t1" 100

/-- Demo session after one failed step (the operation throws `errX`). -/
def demo2 : DebugServiceState :=
  (trackStep demo1 "t1" "failing step" "d" "a" "e" pageOK 100 110 112
    (Except.error errX : Except JSValue JSValue)).1

/-- Demo session after a subsequent successful step. -/
def demo3 : DebugServiceState :=
  (trackStep demo2 "t1" "ok step" "d" "a" "e" pageOK 112 120 122
    (Except.ok (JSValue.prim "42") : Except JSValue JSValue)).1

/-- The steps recorded under `"t1"` in `demo3`. -/
def demoSteps : List DebugStep := (mapGet demo3.debugSteps "t1").getD []

/-- Placeholder step used as a `headD` default. -/
def dummyStep : DebugStep :=
  { stepNumber := 0, stepName := "", description := "", action := "",
    expectedResult := "", success := true }

/-- The first (failed) recorded step of the demo session. -/
def demoFailedStep : DebugStep := demoSteps.headD dummyStep

/-- Debug-mode session used by the capture-failure counterexamples. -/
def dbg5 : DebugServiceState := initTest (initialState true) "t5" 0

/-- Debug-mode session used by the after-screenshot counterexample. -/
def dbg7 : DebugServiceState := initTest (initialState true) "t7" 0

/-- Double-initialization scenario: first `initializeTest "t4"`. -/
def c4a : DebugServiceState := initTest (initialState false) "t4" 0

/-- ... one step recorded under the first session ... -/
def c4b : DebugServiceState :=
  (trackStep c4a "t4" "s" "d" "a" "e" pageOK 0 1 2
    (Except.ok (JSValue.prim "r") : Except JSValue JSValue)).1

/-- ... then `initializeTest "t4"` a second time. -/
def c4c : DebugServiceState := initTest c4b "t4" 10

/-! Helper lemmas. -/

theorem mapGet_set_self {V : Type} (m : StrMap V) (k : String) (v : V) :
    mapGet (mapSet m k v) k = some v := by
  simp [mapGet, mapSet]

theorem mapGet_set_other {V : Type} (m : StrMap V) (k k' : String) (v : V)
    (h : k' ≠ k) : mapGet (mapSet m k v) k' = mapGet m k' := by
  simp [mapGet, mapSet, h]

theorem mapGet_delete_self {V : Type} (m : StrMap V) (k : String) :
    mapGet (mapDelete m k) k = none := by
  simp [mapGet, mapDelete]

theorem mapGet_delete_other {V : Type} (m : StrMap V) (k k' : String)
    (h : k' ≠ k) : mapGet (mapDelete m k) k' = mapGet m k' := by
  simp [mapGet, mapDelete, h]

theorem mapGet_empty {V : Type} (k : String) :
    mapGet (mapEmpty : StrMap V) k = none := rfl

/-- `captureErrorContext` never changes a step's number, outcome, duration, or
the presence/message/stack of its error details. -/
theorem captureErrorContext_preserves (tn : String) (st : DebugStep)
    (page : PageModel) :
    (captureErrorContext tn st page).stepNumber = st.stepNumber ∧
    (captureErrorContext tn st page).success = st.success ∧
    (captureErrorContext tn st page).duration = st.duration ∧
    (captureErrorContext tn st page).errorDetails.isSome = st.errorDetails.isSome ∧
    (captureErrorContext tn st page).errorDetails.map ErrorDetails.message
      = st.errorDetails.map ErrorDetails.message ∧
    (captureErrorContext tn st page).errorDetails.map ErrorDetails.stack
      = st.errorDetails.map ErrorDetails.stack := by
  unfold captureErrorContext
  split
  · cases h : st.errorDetails <;> simp [h]
  · simp

/-- Facts about the record produced by the catch-block mutation. -/
theorem failedStepOf_facts (tn : String) (cur : DebugStep) (t0 t2 : Nat)
    (page : PageModel) (e : JSValue) :
    (failedStepOf tn cur t0 t2 page e).success = false ∧
    (failedStepOf tn cur t0 t2 page e).stepNumber = cur.stepNumber ∧
    (failedStepOf tn cur t0 t2 page e).duration = t2 - t0 ∧
    (failedStepOf tn cur t0 t2 page e).errorDetails.isSome = true ∧
    (failedStepOf tn cur t0 t2 page e).errorDetails.map ErrorDetails.message
      = some e.messageOf ∧
    (failedStepOf tn cur t0 t2 page e).errorDetails.map ErrorDetails.stack
      = some e.stackOf := by
  unfold failedStepOf
  obtain ⟨h1, h2, h3, h4, h5, h6⟩ := captureErrorContext_preserves tn
    { cur with duration := t2 - t0, success := false,
               actualResult := some ("Step failed: " ++ e.jsToString),
               errorDetails := some { message := e.messageOf, stack := e.stackOf,
                                      pageUrl := page.url } } page
  rw [h1, h2, h3, h4, h5, h6]
  simp

/-- When the error-screenshot capture fails, `captureErrorContext`'s own
`catch (captureError)` fires and the step is returned exactly as it was:
the base error details with every artifact-reference field still empty. -/
theorem failedStepOf_capture_fail (tn : String) (cur : DebugStep) (t0 t2 : Nat)
    (page : PageModel) (e ce : JSValue) (h : page.errorShot = Except.error ce) :
    failedStepOf tn cur t0 t2 page e =
      { cur with duration := t2 - t0, success := false,
                 actualResult := some ("Step failed: " ++ e.jsToString),
                 errorDetails := some { message := e.messageOf, stack := e.stackOf,
                                        pageUrl := page.url } } := by
  unfold failedStepOf captureErrorContext
  split
  · next heq _ _ _ _ => rw [h] at heq; exact absurd heq (by simp)
  · rfl

/-- `trackStep` in closed form: it always appends exactly the step
`newStepOf` to the session's list and returns exactly `resultOf`, leaving
`testStartTime` and the debug flag untouched. -/
theorem trackStep_closed_form {α : Type} (svc : DebugServiceState)
    (tn sn d a er : String) (page : PageModel) (t0 t1 t2 : Nat)
    (sf : Except JSValue α) :
    trackStep svc tn sn d a er page t0 t1 t2 sf =
      ({ svc with
          debugSteps := mapSet svc.debugSteps tn
            (((mapGet svc.debugSteps tn).getD []) ++
              [newStepOf svc.isDebugMode tn sn d a er page t0 t1 t2
                ((mapGet svc.debugSteps tn).getD []).length sf]) },
       resultOf svc.isDebugMode page sf) := by
  unfold trackStep newStepOf resultOf
  cases hdm : svc.isDebugMode <;>
    cases hb : page.beforeShot <;>
    cases hsf : sf <;>
    cases ha : page.afterShot <;>
    simp [catchBranch, hdm, hb, hsf, ha]

theorem range'_snoc (s n : Nat) :
    List.range' s (n + 1) = List.range' s n ++ [s + n] := by
  induction n generalizing s with
  | zero => simp [List.range']
  | succ k ih =>
      rw [List.range', ih (s + 1), List.range']
      simp [Nat.add_assoc, Nat.add_comm 1 k]

theorem failedStepOf_success (tn : String) (cur : DebugStep) (t0 t2 : Nat)
    (page : PageModel) (e : JSValue) :
    (failedStepOf tn cur t0 t2 page e).success = false :=
  (failedStepOf_facts tn cur t0 t2 page e).1

theorem failedStepOf_stepNumber (tn : String) (cur : DebugStep) (t0 t2 : Nat)
    (page : PageModel) (e : JSValue) :
    (failedStepOf tn cur t0 t2 page e).stepNumber = cur.stepNumber :=
  (failedStepOf_facts tn cur t0 t2 page e).2.1

theorem failedStepOf_duration (tn : String) (cur : DebugStep) (t0 t2 : Nat)
    (page : PageModel) (e : JSValue) :
    (failedStepOf tn cur t0 t2 page e).duration = t2 - t0 :=
  (failedStepOf_facts tn cur t0 t2 page e).2.2.1

theorem failedStepOf_isSome (tn : String) (cur : DebugStep) (t0 t2 : Nat)
    (page : PageModel) (e : JSValue) :
    (failedStepOf tn cur t0 t2 page e).errorDetails.isSome = true :=
  (failedStepOf_facts tn cur t0 t2 page e).2.2.2.1

theorem failedStepOf_message (tn : String) (cur : DebugStep) (t0 t2 : Nat)
    (page : PageModel) (e : JSValue) :
    (failedStepOf tn cur t0 t2 page e).errorDetails.map ErrorDetails.message
      = some e.messageOf :=
  (failedStepOf_facts tn cur t0 t2 page e).2.2.2.2.1

theorem failedStepOf_stack (tn : String) (cur : DebugStep) (t0 t2 : Nat)
    (page : PageModel) (e : JSValue) :
    (failedStepOf tn cur t0 t2 page e).errorDetails.map ErrorDetails.stack
      = some e.stackOf :=
  (failedStepOf_facts tn cur t0 t2 page e).2.2.2.2.2

/-- The appended step always carries the next sequence number. -/
theorem newStepOf_stepNumber {α : Type} (dm : Bool)
    (tn sn d a er : String) (page : PageModel) (t0 t1 t2 : Nat)
    (prevLen : Nat) (sf : Except JSValue α) :
    (newStepOf dm tn sn d a er page t0 t1 t2 prevLen sf).stepNumber
      = prevLen + 1 := by
  unfold newStepOf
  cases dm <;> cases hb : page.beforeShot <;> cases hsf : sf <;>
    cases ha : page.afterShot <;>
    simp [hb, hsf, ha, failedStepOf_stepNumber]

/-- The appended step satisfies the error-details-iff-failure property. -/
theorem newStepOf_iff {α : Type} (dm : Bool)
    (tn sn d a er : String) (page : PageModel) (t0 t1 t2 : Nat)
    (prevLen : Nat) (sf : Except JSValue α) :
    ((newStepOf dm tn sn d a er page t0 t1 t2 prevLen sf).success = false ↔
      (newStepOf dm tn sn d a er page t0 t1 t2 prevLen sf).errorDetails.isSome
        = true) := by
  unfold newStepOf
  cases dm <;> cases hb : page.beforeShot <;> cases hsf : sf <;>
    cases ha : page.afterShot <;>
    simp [hb, hsf, ha, failedStepOf_success, failedStepOf_isSome]

theorem stepsInv_nil : stepsInv [] := by
  constructor
  · simp [List.range']
  · intro s hs; cases hs

theorem stepsInv_snoc (l : List DebugStep) (st : DebugStep) (h : stepsInv l)
    (hn : st.stepNumber = l.length + 1)
    (hiff : st.success = false ↔ st.errorDetails.isSome = true) :
    stepsInv (l ++ [st]) := by
  constructor
  · rw [List.map_append, h.1, List.length_append]
    simp only [List.map_cons, List.map_nil, List.length_cons, List.length_nil]
    rw [hn, range'_snoc 1 l.length, Nat.add_comm 1 l.length]
  · intro s hs
    rcases List.mem_append.1 hs with hmem | hmem
    · exact h.2 s hmem
    · rcases List.mem_singleton.1 hmem with rfl
      exact hiff

/-- `initializeTest` preserves the whole-state invariant. -/
theorem stateInv_initTest (svc : DebugServiceState) (tn : String) (now : Nat)
    (h : stateInv svc) : stateInv (initTest svc tn now) := by
  intro tn' l hl
  unfold initTest at hl
  by_cases he : tn' = tn
  · subst he
    rw [mapGet_set_self] at hl
    cases hl
    exact stepsInv_nil
  · rw [mapGet_set_other _ _ _ _ he] at hl
    exact h tn' l hl

/-- `trackStep` preserves the whole-state invariant. -/
theorem stateInv_trackStep {α : Type} (svc : DebugServiceState)
    (tn sn d a er : String) (page : PageModel) (t0 t1 t2 : Nat)
    (sf : Except JSValue α) (h : stateInv svc) :
    stateInv (trackStep svc tn sn d a er page t0 t1 t2 sf).1 := by
  intro tn' l hl
  rw [trackStep_closed_form] at hl
  simp only at hl
  by_cases he : tn' = tn
  · subst he
    rw [mapGet_set_self] at hl
    cases hl
    have hprev : stepsInv ((mapGet svc.debugSteps tn').getD []) := by
      cases hp : mapGet svc.debugSteps tn' with
      | none => simpa using stepsInv_nil
      | some l0 => simpa using h tn' l0 hp
    exact stepsInv_snoc _ _ hprev
      (newStepOf_stepNumber svc.isDebugMode tn' sn d a er page
        t0 t1 t2 ((mapGet svc.debugSteps tn').getD []).length sf)
      (newStepOf_iff svc.isDebugMode tn' sn d a er page
        t0 t1 t2 ((mapGet svc.debugSteps tn').getD []).length sf)
  · rw [mapGet_set_other _ _ _ _ he] at hl
    exact h tn' l hl

/-- `finalizeTest` preserves the whole-state invariant. -/
theorem stateInv_finalizeTest (svc : DebugServiceState) (tn : String)
    (endTime : Nat) (s : Bool) (h : stateInv svc) :
    stateInv (finalizeTest svc tn endTime s).1 := by
  intro tn' l hl
  unfold finalizeTest at hl
  simp only at hl
  by_cases he : tn' = tn
  · subst he
    rw [mapGet_delete_self] at hl
    cases hl
  · rw [mapGet_delete_other _ _ _ he] at hl
    exact h tn' l hl

/-- Every reachable service state satisfies the per-session invariant. -/
theorem reachable_stateInv (svc : DebugServiceState) (h : Reachable svc) :
    stateInv svc := by
  induction h with
  | empty dm =>
      intro tn l hl
      simp [initialState, mapGet, mapEmpty] at hl
  | start svc tn now _ ih => exact stateInv_initTest svc tn now ih
  | step svc tn sn d a er page t0 t1 t2 sf _ ih =>
      exact stateInv_trackStep svc tn sn d a er page t0 t1 t2 sf ih
  | finish svc tn endTime s _ ih => exact stateInv_finalizeTest svc tn endTime s ih

/-- When the operation is reached (the "before" screenshot did not fail
first) and throws, the caller receives exactly the thrown value back. -/
theorem resultOf_error {α : Type} (dm : Bool) (page : PageModel) (e : JSValue)
    (hb : dm = true → page.beforeShot = Except.ok ()) :
    resultOf dm page (Except.error e : Except JSValue α) = Except.error e := by
  unfold resultOf
  cases dm
  · simp
  · rw [hb rfl]; simp

/-- When no screenshot around the step fails, a successful operation's result
is returned unchanged. -/
theorem resultOf_ok {α : Type} (dm : Bool) (page : PageModel) (v : α)
    (hcap : dm = true → page.beforeShot = Except.ok () ∧ page.afterShot = Except.ok ()) :
    resultOf dm page (Except.ok v : Except JSValue α) = Except.ok v := by
  unfold resultOf
  cases dm
  · simp
  · rw [(hcap rfl).1, (hcap rfl).2]; simp

/-- When the operation is reached and throws, the recorded step is a failed
step whose error-detail message and stack are exactly those derived from the
thrown value. -/
theorem newStepOf_error_facts {α : Type} (dm : Bool)
    (tn sn d a er : String) (page : PageModel) (t0 t1 t2 prevLen : Nat)
    (e : JSValue) (hb : dm = true → page.beforeShot = Except.ok ()) :
    (newStepOf dm tn sn d a er page t0 t1 t2 prevLen
        (Except.error e : Except JSValue α)).success = false ∧
    (newStepOf dm tn sn d a er page t0 t1 t2 prevLen
        (Except.error e : Except JSValue α)).errorDetails.map ErrorDetails.message
      = some e.messageOf ∧
    (newStepOf dm tn sn d a er page t0 t1 t2 prevLen
        (Except.error e : Except JSValue α)).errorDetails.map ErrorDetails.stack
      = some e.stackOf ∧
    (newStepOf dm tn sn d a er page t0 t1 t2 prevLen
        (Except.error e : Except JSValue α)).duration = t2 - t0 := by
  unfold newStepOf
  cases dm
  · simp [failedStepOf_success, failedStepOf_message, failedStepOf_stack,
      failedStepOf_duration]
  · rw [hb rfl]
    simp [failedStepOf_success, failedStepOf_message, failedStepOf_stack,
      failedStepOf_duration]

/-- When the operation is reached and throws but the error-screenshot capture
itself fails, the recorded step keeps exactly the base error details: every
artifact-reference field is still empty. -/
theorem newStepOf_error_capture_fail {α : Type} (dm : Bool)
    (tn sn d a er : String) (page : PageModel) (t0 t1 t2 prevLen : Nat)
    (e ce : JSValue) (hb : dm = true → page.beforeShot = Except.ok ())
    (hc : page.errorShot = Except.error ce) :
    (newStepOf dm tn sn d a er page t0 t1 t2 prevLen
        (Except.error e : Except JSValue α)).errorDetails
      = some { message := e.messageOf, stack := e.stackOf, pageUrl := page.url } := by
  unfold newStepOf
  cases dm
  · simp only [Bool.false_eq_true, if_false]
    rw [failedStepOf_capture_fail tn _ t0 t2 page e ce hc]
  · rw [hb rfl]
    simp only [if_true]
    rw [failedStepOf_capture_fail tn _ t0 t2 page e ce hc]

/-- When no screenshot around the step fails, a successful operation is
recorded as a successful step with its duration and no error details. -/
theorem newStepOf_ok_facts {α : Type} (dm : Bool)
    (tn sn d a er : String) (page : PageModel) (t0 t1 t2 prevLen : Nat)
    (v : α)
    (hcap : dm = true → page.beforeShot = Except.ok () ∧ page.afterShot = Except.ok ()) :
    (newStepOf dm tn sn d a er page t0 t1 t2 prevLen (Except.ok v)).success = true ∧
    (newStepOf dm tn sn d a er page t0 t1 t2 prevLen (Except.ok v)).duration = t1 - t0 ∧
    (newStepOf dm tn sn d a er page t0 t1 t2 prevLen (Except.ok v)).errorDetails = none ∧
    (newStepOf dm tn sn d a er page t0 t1 t2 prevLen (Except.ok v)).actualResult
      = some "Step completed successfully" := by
  unfold newStepOf
  cases dm
  · simp
  · rw [(hcap rfl).1, (hcap rfl).2]
    simp

/-! Cross-test isolation machinery. -/

theorem agreeOn_of_eqs {B : String} {s s' : DebugServiceState}
    (h1 : mapGet s.debugSteps B = mapGet s'.debugSteps B)
    (h2 : mapGet s.testStartTime B = mapGet s'.testStartTime B)
    (h3 : s.isDebugMode = s'.isDebugMode) : agreeOn B s s' := ⟨h1, h2, h3⟩

theorem agreeOn_trans {B : String} {s1 s2 s3 : DebugServiceState}
    (h : agreeOn B s1 s2) (h' : agreeOn B s2 s3) : agreeOn B s1 s3 :=
  ⟨h.1.trans h'.1, h.2.1.trans h'.2.1, h.2.2.trans h'.2.2⟩

/-- A call on behalf of another test never changes anything test `B` can
observe. -/
theorem applyOp_frame (svc : DebugServiceState) (tn B : String) (op : DebugOp)
    (h : tn ≠ B) : agreeOn B (applyOp svc tn op) svc := by
  cases op with
  | start now =>
      exact ⟨mapGet_set_other _ _ _ _ (Ne.symm h),
             mapGet_set_other _ _ _ _ (Ne.symm h), rfl⟩
  | step sn d a er page t0 t1 t2 sf =>
      rw [applyOp, trackStep_closed_form]
      exact ⟨mapGet_set_other _ _ _ _ (Ne.symm h), rfl, rfl⟩
  | finish endTime ok =>
      exact ⟨mapGet_delete_other _ _ _ (Ne.symm h),
             mapGet_delete_other _ _ _ (Ne.symm h), rfl⟩

/-- A call on behalf of test `B` observes only what `B` can observe: states
agreeing for `B` stay in agreement. -/
theorem applyOp_congr (B : String) (op : DebugOp) (s s' : DebugServiceState)
    (h : agreeOn B s s') : agreeOn B (applyOp s B op) (applyOp s' B op) := by
  obtain ⟨h1, h2, h3⟩ := h
  cases op with
  | start now =>
      exact ⟨by rw [applyOp, applyOp, initTest, initTest]
                simp only
                rw [mapGet_set_self, mapGet_set_self],
             by rw [applyOp, applyOp, initTest, initTest]
                simp only
                rw [mapGet_set_self, mapGet_set_self], h3⟩
  | step sn d a er page t0 t1 t2 sf =>
      rw [applyOp, applyOp, trackStep_closed_form, trackStep_closed_form]
      refine ⟨?_, h2, h3⟩
      simp only
      rw [mapGet_set_self, mapGet_set_self, h1, h3]
  | finish endTime ok =>
      rw [applyOp, applyOp, finalizeTest, finalizeTest]
      exact ⟨by simp only; rw [mapGet_delete_self, mapGet_delete_self],
             by simp only; rw [mapGet_delete_self, mapGet_delete_self], h3⟩

/-- Running a trace, test `B`'s observable state is what it would be had only
`B`'s own calls run. -/
theorem runOps_agree (B : String) (ops : List (String × DebugOp)) :
    ∀ s s' : DebugServiceState, agreeOn B s s' →
      agreeOn B (runOps s ops) (runOps s' (ops.filter fun p => p.1 == B)) := by
  induction ops with
  | nil => intro s s' h; exact h
  | cons p rest ih =>
      intro s s' h
      obtain ⟨tn, op⟩ := p
      by_cases htn : tn = B
      · subst htn
        simp only [List.filter_cons, beq_self_eq_true, if_true, runOps]
        exact ih _ _ (applyOp_congr _ op s s' h)
      · have hbeq : (tn == B) = false := beq_eq_false_iff_ne.2 htn
        simp only [List.filter_cons, hbeq, Bool.false_eq_true, if_false, runOps]
        exact ih _ _ (agreeOn_trans (applyOp_frame s tn B op htn) h)

/-- Splitting a list by a Boolean predicate preserves its length. -/
theorem length_filter_split {β : Type} (p : β → Bool) (l : List β) :
    (l.filter p).length + (l.filter fun x => !(p x)).length = l.length := by
  induction l with
  | nil => rfl
  | cons x xs ih => cases h : p x <;> simp [List.filter_cons, h] <;> omega

/-- The demo session state is reachable by actual service calls. -/
theorem demo3_reachable : Reachable demo3 :=
  Reachable.step demo2 "t1" "ok step" "d" "a" "e" pageOK 112 120 122
    (Except.ok (JSValue.prim "42"))
    (Reachable.step demo1 "t1" "failing step" "d" "a" "e" pageOK 100 110 112
      (Except.error errX)
      (Reachable.start (initialState false) "t1" 100 (Reachable.empty false)))

/-! Claim theorems. -/

/-- C1: for every operation passed to `trackStep` that is invoked and throws
(the hypothesis expresses that the wrapper reaches the operation: in debug
mode the "before" screenshot did not itself fail first, in which case the
closure is never run and so never throws), the wrapper appends one failed
step for that test whose `errorDetails.message` is exactly (hence contains)
the thrown error's message, and re-raises the very same error value to the
caller — it never swallows or replaces it. -/
theorem trackStep_reraises_original_error {α : Type} (svc : DebugServiceState)
    (tn sn d a er : String) (page : PageModel) (t0 t1 t2 : Nat) (e : JSValue)
    (hb : svc.isDebugMode = true → page.beforeShot = Except.ok ()) :
    (trackStep svc tn sn d a er page t0 t1 t2
        (Except.error e : Except JSValue α)).2 = Except.error e ∧
    ∃ st : DebugStep,
      ((trackStep svc tn sn d a er page t0 t1 t2
          (Except.error e : Except JSValue α)).1).debugSteps
        = mapSet svc.debugSteps tn (((mapGet svc.debugSteps tn).getD []) ++ [st]) ∧
      st.success = false ∧
      st.errorDetails.map ErrorDetails.message = some e.messageOf := by
  rw [trackStep_closed_form]
  obtain ⟨f1, f2, -, -⟩ := newStepOf_error_facts svc.isDebugMode tn sn d a er
    page t0 t1 t2 ((mapGet svc.debugSteps tn).getD []).length e hb
  exact ⟨resultOf_error _ _ _ hb, _, rfl, f1, f2⟩

theorem trackStep_reraises_original_error_witness :
    (trackStep (initialState false) "t1" "s" "d" "a" "e" pageOK 0 5 7
        (Except.error errX : Except JSValue Nat)).2 = Except.error errX ∧
    ∃ st : DebugStep,
      ((trackStep (initialState false) "t1" "s" "d" "a" "e" pageOK 0 5 7
          (Except.error errX : Except JSValue Nat)).1).debugSteps
        = mapSet (initialState false).debugSteps "t1"
            (((mapGet (initialState false).debugSteps "t1").getD []) ++ [st]) ∧
      st.success = false ∧
      st.errorDetails.map ErrorDetails.message = some errX.messageOf :=
  trackStep_reraises_original_error (initialState false) "t1" "s" "d" "a" "e"
    pageOK 0 5 7 errX (fun h => Bool.noConfusion h)

/-- C2: in every reachable service state, the sequence numbers of the steps
recorded under any test identifier form the contiguous range `1..N` in call
order, with no gaps or repeats (so a step recorded after a failed step gets
the previous maximum plus one). -/
theorem trackStep_sequence_contiguous (svc : DebugServiceState)
    (hr : Reachable svc) (tn : String) (steps : List DebugStep)
    (hs : mapGet svc.debugSteps tn = some steps) :
    steps.map (fun s => s.stepNumber) = List.range' 1 steps.length :=
  (reachable_stateInv svc hr tn steps hs).1

theorem trackStep_sequence_contiguous_witness :
    demoSteps.map (fun s => s.stepNumber) = List.range' 1 demoSteps.length :=
  trackStep_sequence_contiguous demo3 demo3_reachable "t1" demoSteps rfl

/-- C3 counterexample: calling the step wrapper for a test identifier with no
live session does NOT fail with a session-not-found error — the call succeeds
(returning the operation's result) and DOES record a step under that
identifier; `finalizeTest` for an unknown identifier likewise does not fail
and reports zero steps. -/
theorem unknown_session_counterexample :
    (trackStep (initialState false) "unknown" "s" "d" "a" "e" pageOK 0 1 2
        (Except.ok (42 : Nat))).2 = Except.ok 42 ∧
    ((mapGet ((trackStep (initialState false) "unknown" "s" "d" "a" "e" pageOK
        0 1 2 (Except.ok (42 : Nat))).1).debugSteps "unknown").getD []).length
      = 1 ∧
    ((finalizeTest (initialState false) "unknown" 5 true).2).totalSteps = 0 :=
  ⟨rfl, rfl, rfl⟩

/-- C3 amended: invoking the step wrapper for a test identifier with no live
session does not fail at all — it treats the step log as empty, records the
step under that identifier (creating a registry entry with sequence number 1),
and propagates the operation's outcome unchanged; `finalizeTest` for such an
identifier does not fail either but emits a report over zero steps. -/
theorem trackStep_unknown_session {α : Type} (svc : DebugServiceState)
    (tn sn d a er : String) (page : PageModel) (t0 t1 t2 t : Nat) (s : Bool)
    (sf : Except JSValue α)
    (h : mapGet svc.debugSteps tn = none)
    (hcap : svc.isDebugMode = true →
      page.beforeShot = Except.ok () ∧ page.afterShot = Except.ok ()) :
    (trackStep svc tn sn d a er page t0 t1 t2 sf).2 = sf ∧
    (∃ st : DebugStep,
      ((trackStep svc tn sn d a er page t0 t1 t2 sf).1).debugSteps
        = mapSet svc.debugSteps tn [st] ∧ st.stepNumber = 1) ∧
    ((finalizeTest svc tn t s).2).totalSteps = 0 := by
  rw [trackStep_closed_form]
  refine ⟨?_, ⟨newStepOf svc.isDebugMode tn sn d a er page t0 t1 t2
      ((mapGet svc.debugSteps tn).getD []).length sf, ?_, ?_⟩, ?_⟩
  · cases sf with
    | error e => exact resultOf_error _ _ _ (fun hd => (hcap hd).1)
    | ok v => exact resultOf_ok _ _ _ hcap
  · rw [h]
    simp
  · rw [newStepOf_stepNumber, h]
    rfl
  · have h' : svc.debugSteps tn = none := h
    simp [finalizeTest, generateTestReport, mapGet, h']

theorem trackStep_unknown_session_witness :
    (trackStep (initialState false) "u" "s" "d" "a" "e" pageOK 0 1 2
        (Except.ok (7 : Nat))).2 = Except.ok 7 ∧
    (∃ st : DebugStep,
      ((trackStep (initialState false) "u" "s" "d" "a" "e" pageOK 0 1 2
          (Except.ok (7 : Nat))).1).debugSteps
        = mapSet (initialState false).debugSteps "u" [st] ∧ st.stepNumber = 1) ∧
    ((finalizeTest (initialState false) "u" 5 true).2).totalSteps = 0 :=
  trackStep_unknown_session (initialState false) "u" "s" "d" "a" "e" pageOK
    0 1 2 5 true (Except.ok 7) rfl (fun h => Bool.noConfusion h)

/-- C4 counterexample: a second `initializeTest` for a live test identifier
does NOT fail with a duplicate-session error (the call has no failure path at
all) and does NOT leave the original session untouched: one step was recorded
under the first session, the second call resets the log to empty, and a
subsequent `finalizeTest` reports zero steps instead of that step. -/
theorem second_init_counterexample :
    ((mapGet c4b.debugSteps "t4").getD []).length = 1 ∧
    mapGet c4c.debugSteps "t4" = some [] ∧
    ((finalizeTest c4c "t4" 20 true).2).totalSteps = 0 :=
  ⟨rfl, rfl, rfl⟩

/-- C4 amended: calling `initializeTest` again for a test identifier that
already has a live session does not fail; it restarts the session, resetting
the recorded step log to empty and the start time to the new call's time, so
a subsequent `finalizeTest` reports only steps recorded after the second
initialization (zero if none were). -/
theorem second_init_resets (svc : DebugServiceState) (tn : String)
    (now t : Nat) (s : Bool) :
    mapGet (initTest svc tn now).debugSteps tn = some [] ∧
    mapGet (initTest svc tn now).testStartTime tn = some now ∧
    ((finalizeTest (initTest svc tn now) tn t s).2).totalSteps = 0 := by
  refine ⟨mapGet_set_self _ _ _, mapGet_set_self _ _ _, ?_⟩
  simp [finalizeTest, generateTestReport, initTest, mapGet, mapSet]

/-- C5 counterexample: with diagnostics enabled, a failure of the "before"
screenshot capture is NOT recovered locally: the wrapped operation (which
would succeed with `99`) is never run, the step is recorded as failed, and
the caller observes the capture error instead of the operation's result. -/
theorem capture_failure_aborts_counterexample :
    (trackStep dbg5 "t5" "s" "d" "a" "e" pageBadBefore 0 1 2
        (Except.ok (99 : Nat))).2 = Except.error shotErr ∧
    (trackStep dbg5 "t5" "s" "d" "a" "e" pageBadBefore 0 1 2
        (Except.ok (99 : Nat))).2 ≠ Except.ok 99 ∧
    ((mapGet ((trackStep dbg5 "t5" "s" "d" "a" "e" pageBadBefore 0 1 2
        (Except.ok (99 : Nat))).1).debugSteps "t5").getD []).map
        (fun st => st.success) = [false] :=
  ⟨rfl, fun hc => Except.noConfusion hc, rfl⟩

/-- C5 amended: only failures inside `captureErrorContext` (error screenshot,
HTML snapshot, page metadata) are recovered locally — there the step's
artifact-reference fields are left empty and the step's outcome and the error
re-raised to the caller are exactly those of the wrapped operation; a failure
of the "before"/"after" screenshot taken inside `trackStep`'s try block is
instead treated as the step's own failure (see the counterexample). -/
theorem error_capture_failure_recovered {α : Type} (svc : DebugServiceState)
    (tn sn d a er : String) (page : PageModel) (t0 t1 t2 : Nat) (e ce : JSValue)
    (hb : svc.isDebugMode = true → page.beforeShot = Except.ok ())
    (hc : page.errorShot = Except.error ce) :
    (trackStep svc tn sn d a er page t0 t1 t2
        (Except.error e : Except JSValue α)).2 = Except.error e ∧
    ∃ st : DebugStep,
      ((trackStep svc tn sn d a er page t0 t1 t2
          (Except.error e : Except JSValue α)).1).debugSteps
        = mapSet svc.debugSteps tn (((mapGet svc.debugSteps tn).getD []) ++ [st]) ∧
      st.success = false ∧
      st.errorDetails = some { message := e.messageOf, stack := e.stackOf,
                               pageUrl := page.url } := by
  rw [trackStep_closed_form]
  obtain ⟨f1, -, -, -⟩ := newStepOf_error_facts svc.isDebugMode tn sn d a er
    page t0 t1 t2 ((mapGet svc.debugSteps tn).getD []).length e hb
  exact ⟨resultOf_error _ _ _ hb, _, rfl, f1,
    newStepOf_error_capture_fail svc.isDebugMode tn sn d a er page t0 t1 t2
      ((mapGet svc.debugSteps tn).getD []).length e ce hb hc⟩

theorem error_capture_failure_recovered_witness :
    (trackStep (initialState false) "t1" "s" "d" "a" "e" pageBadErrorShot 0 5 7
        (Except.error errX : Except JSValue Nat)).2 = Except.error errX ∧
    ∃ st : DebugStep,
      ((trackStep (initialState false) "t1" "s" "d" "a" "e" pageBadErrorShot 0 5 7
          (Except.error errX : Except JSValue Nat)).1).debugSteps
        = mapSet (initialState false).debugSteps "t1"
            (((mapGet (initialState false).debugSteps "t1").getD []) ++ [st]) ∧
      st.success = false ∧
      st.errorDetails = some { message := errX.messageOf, stack := errX.stackOf,
                               pageUrl := pageBadErrorShot.url } :=
  error_capture_failure_recovered (initialState false) "t1" "s" "d" "a" "e"
    pageBadErrorShot 0 5 7 errX shotErr (fun h => Bool.noConfusion h) rfl

/-- C6: for a session whose recorded steps comprise `s` successful and `f`
failed steps, the report emitted by `finalizeTest` has total step count
`s + f`, success count `s`, failure count `f`, and its overall pass/fail flag
is exactly the caller-supplied argument, never inferred from the step
outcomes. -/
theorem finalize_report_totals (svc : DebugServiceState) (tn : String)
    (endTime : Nat) (overallSuccess : Bool) (steps : List DebugStep)
    (hs : mapGet svc.debugSteps tn = some steps) :
    ((finalizeTest svc tn endTime overallSuccess).2).totalSteps = steps.length ∧
    ((finalizeTest svc tn endTime overallSuccess).2).successfulSteps
      = (steps.filter fun st => st.success).length ∧
    ((finalizeTest svc tn endTime overallSuccess).2).failedSteps
      = (steps.filter fun st => !st.success).length ∧
    ((finalizeTest svc tn endTime overallSuccess).2).totalSteps
      = ((finalizeTest svc tn endTime overallSuccess).2).successfulSteps
        + ((finalizeTest svc tn endTime overallSuccess).2).failedSteps ∧
    ((finalizeTest svc tn endTime overallSuccess).2).passed = overallSuccess := by
  refine ⟨?_, ?_, ?_, ?_, ?_⟩ <;>
    simp [finalizeTest, generateTestReport, hs]
  exact (length_filter_split (fun st => st.success) steps).symm

theorem finalize_report_totals_witness :
    ((finalizeTest demo3 "t1" 200 true).2).totalSteps = demoSteps.length ∧
    ((finalizeTest demo3 "t1" 200 true).2).successfulSteps
      = (demoSteps.filter fun st => st.success).length ∧
    ((finalizeTest demo3 "t1" 200 true).2).failedSteps
      = (demoSteps.filter fun st => !st.success).length ∧
    ((finalizeTest demo3 "t1" 200 true).2).totalSteps
      = ((finalizeTest demo3 "t1" 200 true).2).successfulSteps
        + ((finalizeTest demo3 "t1" 200 true).2).failedSteps ∧
    ((finalizeTest demo3 "t1" 200 true).2).passed = true :=
  finalize_report_totals demo3 "t1" 200 true demoSteps rfl

/-- C7 counterexample: with diagnostics enabled, when the wrapped operation
completes successfully (with `42`) but the "after" screenshot fails, the
wrapper does NOT return the result unchanged and does NOT append a successful
step: the caller observes the capture error and the single appended step is
recorded as failed. -/
theorem success_capture_failure_counterexample :
    (trackStep dbg7 "t7" "s" "d" "a" "e" pageBadAfter 0 1 2
        (Except.ok (42 : Nat))).2 = Except.error shotErr ∧
    (trackStep dbg7 "t7" "s" "d" "a" "e" pageBadAfter 0 1 2
        (Except.ok (42 : Nat))).2 ≠ Except.ok 42 ∧
    ((mapGet ((trackStep dbg7 "t7" "s" "d" "a" "e" pageBadAfter 0 1 2
        (Except.ok (42 : Nat))).1).debugSteps "t7").getD []).map
        (fun st => st.success) = [false] :=
  ⟨rfl, fun hc => Except.noConfusion hc, rfl⟩

/-- C7 amended: for every operation that completes successfully, provided no
screenshot around the step fails (always the case when debug mode is off,
since no screenshot is then attempted), the wrapper returns the operation's
result unchanged and appends exactly one successful step carrying its
measured duration and the next sequence number (1 for the first step after
`initializeTest`). -/
theorem trackStep_success_returns_result {α : Type} (svc : DebugServiceState)
    (tn sn d a er : String) (page : PageModel) (t0 t1 t2 : Nat) (v : α)
    (hcap : svc.isDebugMode = true →
      page.beforeShot = Except.ok () ∧ page.afterShot = Except.ok ()) :
    (trackStep svc tn sn d a er page t0 t1 t2 (Except.ok v)).2 = Except.ok v ∧
    ∃ st : DebugStep,
      ((trackStep svc tn sn d a er page t0 t1 t2 (Except.ok v)).1).debugSteps
        = mapSet svc.debugSteps tn (((mapGet svc.debugSteps tn).getD []) ++ [st]) ∧
      st.success = true ∧ st.duration = t1 - t0 ∧
      st.stepNumber = ((mapGet svc.debugSteps tn).getD []).length + 1 ∧
      st.errorDetails = none := by
  rw [trackStep_closed_form]
  obtain ⟨f1, f2, f3, -⟩ := newStepOf_ok_facts svc.isDebugMode tn sn d a er
    page t0 t1 t2 ((mapGet svc.debugSteps tn).getD []).length v hcap
  exact ⟨resultOf_ok _ _ _ hcap, _, rfl, f1, f2,
    newStepOf_stepNumber svc.isDebugMode tn sn d a er page t0 t1 t2
      ((mapGet svc.debugSteps tn).getD []).length (Except.ok v), f3⟩

theorem trackStep_success_returns_result_witness :
    (trackStep demo1 "t1" "s" "d" "a" "e" pageOK 100 110 112
        (Except.ok (42 : Nat))).2 = Except.ok 42 ∧
    ∃ st : DebugStep,
      ((trackStep demo1 "t1" "s" "d" "a" "e" pageOK 100 110 112
          (Except.ok (42 : Nat))).1).debugSteps
        = mapSet demo1.debugSteps "t1"
            (((mapGet demo1.debugSteps "t1").getD []) ++ [st]) ∧
      st.success = true ∧ st.duration = 110 - 100 ∧
      st.stepNumber = ((mapGet demo1.debugSteps "t1").getD []).length + 1 ∧
      st.errorDetails = none :=
  trackStep_success_returns_result demo1 "t1" "s" "d" "a" "e" pageOK 100 110 112
    42 (fun h => Bool.noConfusion h)

/-- C8: in every reachable service state, a recorded step carries an
error-detail record if and only if its outcome is failure: successful steps
never carry error details and failed steps always do. -/
theorem recorded_error_details_iff_failure (svc : DebugServiceState)
    (hr : Reachable svc) (tn : String) (steps : List DebugStep)
    (hs : mapGet svc.debugSteps tn = some steps) (st : DebugStep)
    (hst : st ∈ steps) :
    (st.success = false ↔ st.errorDetails.isSome = true) :=
  (reachable_stateInv svc hr tn steps hs).2 st hst

theorem recorded_error_details_iff_failure_witness :
    (demoFailedStep.success = false ↔ demoFailedStep.errorDetails.isSome = true) :=
  recorded_error_details_iff_failure demo3 demo3_reachable "t1" demoSteps rfl
    demoFailedStep (by decide)

/-- C9: over any interleaved trace of `initializeTest` / `trackStep` /
`finalizeTest` calls on arbitrary test identifiers, the state observable
under identifier `B` (its recorded steps and start time) is exactly what it
would be had only `B`'s own calls run; hence no step recorded under another
identifier ever appears among `B`'s recorded steps or in `B`'s report, and
finishing another identifier's session leaves `B`'s session unchanged. -/
theorem no_cross_test_leakage (svc : DebugServiceState)
    (ops : List (String × DebugOp)) (B : String) :
    mapGet (runOps svc ops).debugSteps B
      = mapGet (runOps svc (ops.filter fun p => p.1 == B)).debugSteps B ∧
    mapGet (runOps svc ops).testStartTime B
      = mapGet (runOps svc (ops.filter fun p => p.1 == B)).testStartTime B := by
  obtain ⟨h1, h2, -⟩ := runOps_agree B ops svc svc ⟨rfl, rfl, rfl⟩
  exact ⟨h1, h2⟩

/-- C10: when the invoked operation throws a value that is not an `Error`
instance (here an arbitrary plain value with string conversion `s`), the
recorded failed step's `errorDetails.message` equals `String(value)`, its
`errorDetails.stack` is absent, and the identical non-Error value is
re-thrown to the caller.  (As in C1, the hypothesis expresses that the
wrapper reaches the operation.) -/
theorem non_error_value_rethrown {α : Type} (svc : DebugServiceState)
    (tn sn d a er : String) (page : PageModel) (t0 t1 t2 : Nat) (s : String)
    (hb : svc.isDebugMode = true → page.beforeShot = Except.ok ()) :
    (trackStep svc tn sn d a er page t0 t1 t2
        (Except.error (JSValue.prim s) : Except JSValue α)).2
      = Except.error (JSValue.prim s) ∧
    ∃ st : DebugStep,
      ((trackStep svc tn sn d a er page t0 t1 t2
          (Except.error (JSValue.prim s) : Except JSValue α)).1).debugSteps
        = mapSet svc.debugSteps tn (((mapGet svc.debugSteps tn).getD []) ++ [st]) ∧
      st.success = false ∧
      st.errorDetails.map ErrorDetails.message = some s ∧
      st.errorDetails.map ErrorDetails.stack = some none := by
  rw [trackStep_closed_form]
  obtain ⟨f1, f2, f3, -⟩ := newStepOf_error_facts svc.isDebugMode tn sn d a er
    page t0 t1 t2 ((mapGet svc.debugSteps tn).getD []).length (JSValue.prim s) hb
  exact ⟨resultOf_error _ _ _ hb, _, rfl, f1, f2, f3⟩

theorem non_error_value_rethrown_witness :
    (trackStep (initialState false) "t1" "s" "d" "a" "e" pageOK 0 5 7
        (Except.error (JSValue.prim "plain failure") : Except JSValue Nat)).2
      = Except.error (JSValue.prim "plain failure") ∧
    ∃ st : DebugStep,
      ((trackStep (initialState false) "t1" "s" "d" "a" "e" pageOK 0 5 7
          (Except.error (JSValue.prim "plain failure") : Except JSValue Nat)).1).debugSteps
        = mapSet (initialState false).debugSteps "t1"
            (((mapGet (initialState false).debugSteps "t1").getD []) ++ [st]) ∧
      st.success = false ∧
      st.errorDetails.map ErrorDetails.message = some "plain failure" ∧
      st.errorDetails.map ErrorDetails.stack = some none :=
  non_error_value_rethrown (initialState false) "t1" "s" "d" "a" "e" pageOK
    0 5 7 "plain failure" (fun h => Bool.noConfusion h)

end DebugSvc
